import Mathlib

/-!
Verification development for the BloomWatch orchestration core.

The Python modules `server/agents/web_search_agent.py`,
`server/agents/explanation_agent.py`, `server/agents/orchestrator.py` and
`server/services/geocoding_service.py` are shallowly embedded below:
pure functions become Lean functions, Python strings become `String`,
Python floats become `Rat` (only compared against decimal constants, never
subjected to rounding-sensitive arithmetic in the embedded paths), and an
operation that can raise is given an `Except` result or an explicit
environment describing the outcome of each external call.
-/

set_option linter.unusedVariables false
set_option maxRecDepth 8192

namespace BloomWatch

/-- Whitespace characters of Python's `str.strip` and the regex class `\s`
(space, tab, newline, carriage return, vertical tab, form feed). -/
def isWsChar (c : Char) : Bool :=
  c = ' ' || c = '\t' || c = '\n' || c = Char.ofNat 13 || c = Char.ofNat 11 || c = Char.ofNat 12

/-- Lower-case a string character-wise (model of Python `str.lower` on ASCII data). -/
def strLower (s : String) : String :=
  String.mk (s.toList.map Char.toLower)

/-- Does the character list `hay` start with `needle`? -/
def startsWithChars : List Char → List Char → Bool
  | [], _ => true
  | _ :: _, [] => false
  | a :: as, b :: bs => a = b && startsWithChars as bs

/-- Does `hay` contain `needle` as a contiguous run? -/
def charsContain (hay needle : List Char) : Bool :=
  match hay with
  | [] => needle.isEmpty
  | _ :: t => startsWithChars needle hay || charsContain t needle

/-- Model of the Python membership test `needle in hay` on strings. -/
def pyIn (needle hay : String) : Bool :=
  charsContain hay.toList needle.toList

/-- Model of `any(word in text for word in words)`. -/
def containsAny (text : String) (words : List String) : Bool :=
  words.any (fun w => pyIn w text)

/-- Model of Python `str.capitalize`: first character upper-cased, rest lower-cased. -/
def pyCapitalize (s : String) : String :=
  match s.toList with
  | [] => ""
  | c :: cs => String.mk (c.toUpper :: cs.map Char.toLower)

/-- Model of Python `str.strip`: drop leading and trailing whitespace. -/
def pyStrip (s : String) : String :=
  String.mk (((s.toList.dropWhile isWsChar).reverse.dropWhile isWsChar).reverse)

/-- Model of Python `str.title` on ASCII text: a letter is upper-cased when the
previous character is not a letter, lower-cased otherwise. -/
def pyTitleGo : Bool → List Char → List Char
  | _, [] => []
  | prevAlpha, c :: cs =>
    if c.isAlpha then
      (if prevAlpha then c.toLower else c.toUpper) :: pyTitleGo true cs
    else
      c :: pyTitleGo false cs

/-- Model of Python `str.title`. -/
def pyTitle (s : String) : String :=
  String.mk (pyTitleGo false s.toList)

/-- Model of the Python slice `s[:n]`. -/
def strTake (s : String) (n : Nat) : String :=
  String.mk (s.toList.take n)

/-! ## Search results (`web_search_agent.py`)

A parsed search result as built by `search_serpapi` / `search_newsapi` /
`get_mock_search_results`: title, snippet, link and a source tag.  Every
producer in the source fills all four keys, so they are plain fields here. -/

structure SearchResult where
  title : String := ""
  snippet : String := ""
  link : String := ""
  source : String := "Unknown"
  deriving Repr, DecidableEq

/-- Combined lower-cased analysis text of `extract_bloom_data_from_search`:
over the first 10 results, append a space, the lower-cased title, a space and
the lower-cased snippet. -/
def combinedText (results : List SearchResult) : String :=
  (results.take 10).foldl
    (fun acc r => acc ++ " " ++ strLower r.title ++ " " ++ strLower r.snippet) ""

/-- One display line of the extractor summary:
`f"{i}. [{source}] {title}: {snippet}"`. -/
def summaryLine (i : Nat) (r : SearchResult) : String :=
  toString i ++ ". [" ++ r.source ++ "] " ++ r.title ++ ": " ++ r.snippet

/-- Summary lines of `extract_bloom_data_from_search`: the loop runs over
`results[:10]` with 1-based index `i` but records a line only for `i <= 5`,
which is the first five results. -/
def summaryParts (results : List SearchResult) : List String :=
  (results.take 5).enum.map (fun p => summaryLine (p.1 + 1) p.2)

/-- Bloom-status classification of `extract_bloom_data_from_search`:
first-match priority over the four keyword groups, default `"unknown"`. -/
def bloomStatusOf (text : String) : String :=
  if containsAny text ["blooming", "in bloom", "flowering now", "currently blooming"] then
    "active"
  else if containsAny text ["will bloom", "expected", "upcoming", "soon"] then
    "upcoming"
  else if containsAny text ["finished", "ended", "past bloom"] then
    "past"
  else if containsAny text ["cannot grow", "not suitable", "doesn\x27t grow", "incompatible"] then
    "not_suitable"
  else
    "unknown"

/-- Fixed January-to-December month-name list of the extractor. -/
def monthNames : List String :=
  ["january", "february", "march", "april", "may", "june",
   "july", "august", "september", "october", "november", "december"]

/-- Months found in the text, in the fixed month-list order
(`[m for m in months if m in combined_text]`). -/
def foundMonths (text : String) : List String :=
  monthNames.filter (fun m => pyIn m text)

/-- Season classification of `extract_bloom_data_from_search`: month names
first (single month, or `first-last` in month-list order when more than one is
found), then season keywords in order, else `"Varies by region"`. -/
def seasonOf (text : String) : String :=
  match foundMonths text with
  | [] =>
    if pyIn "spring" text then "Spring"
    else if pyIn "summer" text then "Summer"
    else if pyIn "fall" text || pyIn "autumn" text then "Autumn"
    else if pyIn "winter" text then "Winter"
    else if pyIn "monsoon" text then "Monsoon"
    else "Varies by region"
  | m :: rest =>
    let s := pyCapitalize m
    if rest.isEmpty then s
    else s ++ "-" ++ pyCapitalize ((m :: rest).getLast (List.cons_ne_nil m rest))

/-- Abundance classification of `extract_bloom_data_from_search`:
high-indicators, then low-indicators, then none-indicators, default `"medium"`. -/
def abundanceOf (text : String) : String :=
  if containsAny text ["abundant", "common", "widespread", "numerous"] then "high"
  else if containsAny text ["rare", "uncommon", "scarce", "limited"] then "low"
  else if containsAny text ["does not grow", "absent", "not found"] then "none"
  else "medium"

/-- Output record of `extract_bloom_data_from_search`.  The empty-input branch
of the source returns a dict without the `combined_analysis` key, hence the
`Option`. -/
structure ExtractedBloomData where
  text_summary : String
  bloom_status : String
  season : String
  abundance : String
  sources_count : Nat
  combined_analysis : Option String
  deriving Repr, DecidableEq

/-- Embedding of `extract_bloom_data_from_search(results, flower, region)`
(the `flower` and `region` parameters are unused in the source body). -/
def extract_bloom_data_from_search
    (results : List SearchResult) (flower region : String) : ExtractedBloomData :=
  if results.isEmpty then
    { text_summary := "No recent web research available."
      bloom_status := "unknown"
      season := "Data not available"
      abundance := "unknown"
      sources_count := 0
      combined_analysis := none }
  else
    let text := combinedText results
    { text_summary := String.intercalate "\n" (summaryParts results)
      bloom_status := bloomStatusOf text
      season := seasonOf text
      abundance := abundanceOf text
      sources_count := results.length
      combined_analysis := some (strTake text 500) }

/-- Embedding of `synthesize_search_results`. -/
def synthesize_search_results (results : List SearchResult) : String :=
  if results.isEmpty then "No recent web research available."
  else
    String.intercalate "\n"
      ((results.take 5).enum.map (fun p => summaryLine (p.1 + 1) p.2))

/-! ## Explanation agent (`explanation_agent.py`) -/

/-- Rendering of a numeric score inside an f-string.  Python renders the float
(`0.7`), this model renders the rational (`7/10`); no embedded claim depends on
the numeral's spelling, only on the surrounding text. -/
def ratRepr (q : Rat) : String := toString q

/-- Embedding of `get_abundance_level`. -/
def get_abundance_level (ndvi_score : Rat) : String :=
  if ndvi_score ≥ 0.7 then "high"
  else if ndvi_score ≥ 0.4 then "medium"
  else "low"

/-- Embedding of `get_current_season`; the current month (`datetime.now().month`)
is passed explicitly. -/
def get_current_season (month : Nat) : String :=
  if month ∈ [3, 4, 5] then "Spring"
  else if month ∈ [6, 7, 8] then "Summer"
  else if month ∈ [9, 10, 11] then "Autumn"
  else "Winter"

/-- One entry of `FLOWER_DATABASE`. -/
structure FlowerInfo where
  scientific : String
  bloom_period : String
  climate : String
  regions : String
  note : Option String := none
  deriving Repr, DecidableEq

/-- Embedding of `FLOWER_DATABASE` as a lookup function (Python `dict.get`). -/
def flowerDatabase : String → Option FlowerInfo
  | "rose" => some ⟨"Rosa", "May to September", "temperate", "worldwide", none⟩
  | "rhododendron" =>
      some ⟨"Rhododendron arboreum", "March to May", "cool temperate, mountainous",
            "Himalayas, high altitude", none⟩
  | "sunflower" =>
      some ⟨"Helianthus annuus", "June to September", "temperate to warm", "worldwide", none⟩
  | "tulip" =>
      some ⟨"Tulipa", "March to May", "cold temperate (requires winter chill)",
            "Kashmir, Netherlands, cold regions",
            some "Requires cold winter temperatures (vernalization). Not native to tropical regions."⟩
  | "cherry blossom" =>
      some ⟨"Prunus serrulata", "March to April", "temperate", "Japan, Korea, temperate zones", none⟩
  | "lotus" =>
      some ⟨"Nelumbo nucifera", "June to August", "tropical to subtropical",
            "Asia, tropical wetlands", none⟩
  | "jasmine" =>
      some ⟨"Jasminum", "June to September", "tropical to subtropical",
            "India, Southeast Asia, tropical", none⟩
  | "marigold" =>
      some ⟨"Tagetes", "July to October", "tropical to temperate", "worldwide", none⟩
  | "lavender" =>
      some ⟨"Lavandula", "June to August", "Mediterranean, temperate",
            "Mediterranean, temperate dry", none⟩
  | "orchid" =>
      some ⟨"Orchidaceae", "Year-round (varies)", "tropical to temperate",
            "worldwide (diverse)", none⟩
  | "hibiscus" =>
      some ⟨"Hibiscus rosa-sinensis", "Year-round in tropics", "tropical",
            "Kerala, tropical regions", none⟩
  | "bougainvillea" =>
      some ⟨"Bougainvillea", "Year-round in tropics", "tropical to subtropical",
            "Kerala, tropical regions", none⟩
  | _ => none

/-- Result record of `check_climate_compatibility`. -/
structure Compat where
  compatible : Bool
  warning : Option String
  flower_climate : String
  region_type : String
  deriving Repr, DecidableEq

/-- Embedding of `check_climate_compatibility`. -/
def check_climate_compatibility (flower region : String) : Compat :=
  let flower_lower := strLower flower
  let region_lower := strLower region
  let tropical_keywords := ["kerala", "tropical", "amazon", "equator", "singapore", "malaysia", "indonesia"]
  let cold_keywords := ["kashmir", "himalaya", "netherlands", "canada", "alaska", "siberia", "scandinavia"]
  let is_tropical := containsAny region_lower tropical_keywords
  let is_cold := containsAny region_lower cold_keywords
  let climate_req :=
    match flowerDatabase flower_lower with
    | some fi => fi.climate
    | none => "unknown"
  let (compatible, warning) :=
    if pyIn "tulip" flower_lower && is_tropical then
      (false, some "Tulips require cold winter temperatures and do not naturally grow in tropical climates like this region.")
    else if pyIn "hibiscus" flower_lower && is_cold then
      (false, some "Hibiscus is a tropical flower and cannot survive in cold climates.")
    else if pyIn "cherry blossom" flower_lower && is_tropical then
      (false, some "Cherry blossoms require temperate climates with distinct seasons and cold winters.")
    else (true, none)
  { compatible := compatible
    warning := warning
    flower_climate := climate_req
    region_type :=
      if is_tropical then "tropical" else if is_cold then "cold/temperate" else "unknown" }

/-- Optional climate data passed by the caller; `_build_response` reads the
`temperature` and `precipitation` keys with `"N/A"` defaults. -/
structure ClimateData where
  temperature : Option String := none
  precipitation : Option String := none
  deriving Repr, DecidableEq

/-- Context record built by `prepare_explanation_context`; every field written
by the source is a field here, optional dict keys become `Option` fields. -/
structure Ctx where
  region : String
  flower_common : String
  flower_scientific : String
  ndvi_score : Rat
  abundance_level : String
  season : String
  known_bloom_period : String
  timestamp : String
  climate : Option ClimateData
  coordinates : Option (Rat × Rat)
  date : Option String
  web_research : Option String
  notes : String
  climate_compatible : Bool
  compatibility : Compat
  deriving Repr, DecidableEq

/-- Embedding of `prepare_explanation_context`; the wall clock
(`datetime.now().month`, `datetime.now().year`, `datetime.utcnow().isoformat()`)
enters through the `month`, `year` and `nowIso` parameters. -/
def prepare_explanation_context
    (region flower : String) (ndvi_score : Rat)
    (coordinates : Option (Rat × Rat)) (climate_data : Option ClimateData)
    (date : Option String) (web_search_summary : Option String)
    (month year : Nat) (nowIso : String) : Ctx :=
  let flower_lower := strLower flower
  let scientific :=
    match flowerDatabase flower_lower with
    | some fi => fi.scientific
    | none => "Unknown species"
  let bloom_period :=
    match flowerDatabase flower_lower with
    | some fi => fi.bloom_period
    | none => "Varies by region"
  let compatibility := check_climate_compatibility flower region
  { region := region
    flower_common := flower
    flower_scientific := scientific
    ndvi_score := ndvi_score
    abundance_level := get_abundance_level ndvi_score
    season := get_current_season month ++ " " ++ toString year
    known_bloom_period := bloom_period
    timestamp := nowIso
    climate := climate_data
    coordinates := coordinates
    date := date
    web_research := web_search_summary
    notes :=
      match compatibility.warning with
      | some w => "⚠️ Climate Warning: " ++ w
      | none =>
        if ndvi_score ≥ 0.8 then "Peak blooming observed, excellent vegetation health"
        else if ndvi_score ≥ 0.6 then "Active bloom period, favorable conditions"
        else if ndvi_score ≥ 0.3 then "Moderate bloom activity, typical for season"
        else "Low vegetation activity, may be off-season or stress conditions"
    climate_compatible := compatibility.warning.isNone
    compatibility := compatibility }

/-- Embedding of `generate_fallback_explanation`: the deterministic templated
paragraph, a pure function of its four arguments. -/
def generate_fallback_explanation
    (region flower : String) (ndvi_score : Rat) (context : Ctx) : String :=
  let abundance := context.abundance_level
  "Based on satellite NDVI analysis (score: " ++ ratRepr ndvi_score ++ "), " ++ flower ++
  " is currently experiencing " ++ abundance ++ " bloom activity in " ++ region ++ ". \n\n" ++
  "The vegetation index indicates " ++
  (if ndvi_score ≥ 0.7 then "excellent" else if ndvi_score ≥ 0.4 then "moderate" else "limited") ++
  " photosynthetic activity, suggesting " ++
  (if ndvi_score ≥ 0.7 then "peak flowering conditions"
   else if ndvi_score ≥ 0.4 then "active growth with emerging blooms"
   else "early or late season conditions") ++
  ". \n\nEcological factors influencing bloom patterns include:\n" ++
  "1. Seasonal temperature variations triggering flowering hormones\n" ++
  "2. Precipitation patterns affecting water availability and soil moisture\n" ++
  "3. Day length (photoperiod) signaling seasonal changes\n" ++
  "4. Local climate conditions specific to " ++ region ++ "\n" ++
  "5. Pollinator populations facilitating reproduction\n\n" ++
  "The current " ++ context.season ++ " period aligns with the typical bloom window of " ++
  context.known_bloom_period ++ ". " ++ context.notes ++
  ". This species plays an important role in the local ecosystem, supporting pollinator populations and contributing to regional biodiversity."

/-! ## Orchestrator (`orchestrator.py`)

The orchestrator's interaction with the outside world (two search providers,
the synthesis crew, the event-loop deadline, the wall clock) is captured by an
environment record: one field per external outcome.  `orchestrate` is then a
total function of the environment and the request arguments — every `except`
handler of the source becomes an explicit branch on an environment field. -/

/-- Dictionary returned by the search layer
(`perform_web_search` / `get_mock_search_results` / the error handlers).
The two error dicts omit the `result_count` key, hence the `Option`. -/
structure WebSearchOut where
  raw_results : List SearchResult
  synthesis : String
  result_count : Option Nat
  error : Option String
  mock : Bool := false
  deriving Repr, DecidableEq

/-- Environment of one `orchestrate` call: configuration plus the outcome of
every external interaction. -/
structure OrchEnv where
  hasLLM : Bool
  serpapiKey : String
  newsapiKey : String
  serpapiAvailable : Bool := true
  newsapiAvailable : Bool := true
  serpCall : Except String (List SearchResult) := .ok []
  newsCall : Except String (List SearchResult) := .ok []
  crewSynthesis : Except String String := .error "no crew"
  crewExplanation : Except String String := .error "no crew"
  webSearchRaise : Option String := none
  searchTaskRaise : Option String := none
  contextTaskRaise : Option String := none
  timedOut : Bool := false
  monthNow : Nat := 1
  yearNow : Nat := 2025
  nowIso : String := ""
  elapsedMs : Nat := 0

/-- Embedding of `search_serpapi`: unavailable library or missing key gives
`[]`; a raising provider call is caught and gives `[]`; otherwise the first
`max_results` parsed results. -/
def search_serpapi (env : OrchEnv) (query : String) (max_results : Nat) : List SearchResult :=
  if !env.serpapiAvailable || env.serpapiKey = "" then []
  else
    match env.serpCall with
    | .error _ => []
    | .ok rs => rs.take max_results

/-- Embedding of `search_newsapi`, same degradation shape as `search_serpapi`. -/
def search_newsapi (env : OrchEnv) (query : String) (max_results : Nat) : List SearchResult :=
  if !env.newsapiAvailable || env.newsapiKey = "" then []
  else
    match env.newsCall with
    | .error _ => []
    | .ok rs => rs.take max_results

/-- Embedding of `unified_search`: the two provider-specific queries, both
providers queried, results concatenated (either provider failing has already
degraded to `[]` inside its wrapper). -/
def unified_search (env : OrchEnv) (region flower : String) (max_results : Nat) : List SearchResult :=
  let general_query :=
    "\"" ++ flower ++ "\" flowers grow naturally \"" ++ region ++ "\" climate requirements native"
  let news_query := flower ++ " flowering season " ++ region ++ " bloom timing climate"
  search_serpapi env general_query max_results ++ search_newsapi env news_query max_results

/-- Embedding of `perform_web_search`: gather, then synthesize with the crew
when results and an LLM exist (falling back to the deterministic join when the
crew raises), else the deterministic join. -/
def perform_web_search (env : OrchEnv) (region flower : String) (max_results : Nat) : WebSearchOut :=
  let search_results := unified_search env region flower max_results
  let synthesis :=
    if !search_results.isEmpty && env.hasLLM then
      match env.crewSynthesis with
      | .ok s => s
      | .error _ => synthesize_search_results search_results
    else synthesize_search_results search_results
  { raw_results := search_results
    synthesis := synthesis
    result_count := some search_results.length
    error := none }

/-- Embedding of `get_mock_search_results`: the deterministic two-result mock. -/
def get_mock_search_results (region flower : String) : WebSearchOut :=
  let mock_results : List SearchResult :=
    [ { title := pyTitle flower ++ " Blooming Patterns in " ++ region
        snippet := "Recent studies show " ++ flower ++ " blooming patterns in " ++ region ++
                   " are influenced by temperature and precipitation."
        link := "https://example.com/study1"
        source := "Mock SerpAPI" },
      { title := "Climate Impact on " ++ pyTitle flower ++ " Growth"
        snippet := "Climate change is affecting " ++ flower ++ " bloom timing in " ++ region ++
                   ", with earlier flowering observed."
        link := "https://example.com/news1"
        source := "Mock NewsAPI" } ]
  { raw_results := mock_results
    synthesis := "Recent research indicates that " ++ flower ++ " blooming in " ++ region ++
                 " is responding to climate variations, with temperature and precipitation playing key roles. Earlier bloom times have been observed in recent years."
    result_count := some mock_results.length
    error := none
    mock := true }

/-- Embedding of `BloomExplanationOrchestrator._run_web_search`: mock results
when requested or when both provider keys are empty, otherwise the real search;
an unexpected exception inside the method degrades to the documented
`"Web search unavailable"` dict. -/
def run_web_search (env : OrchEnv) (region flower : String) (use_mock : Bool)
    (max_results : Nat) : WebSearchOut :=
  match env.webSearchRaise with
  | some e =>
    { raw_results := [], synthesis := "Web search unavailable", result_count := none, error := some e }
  | none =>
    if use_mock || (env.serpapiKey = "" && env.newsapiKey = "") then
      get_mock_search_results region flower
    else
      perform_web_search env region flower max_results

/-- Embedding of `BloomExplanationOrchestrator._generate_explanation`: no LLM
or a raising crew gives the deterministic fallback, otherwise the crew's
stripped output. -/
def generate_explanation (env : OrchEnv) (context : Ctx) (web_synthesis : String) : String :=
  if !env.hasLLM then
    generate_fallback_explanation context.region context.flower_common context.ndvi_score context
  else
    match env.crewExplanation with
    | .ok s => pyStrip s
    | .error _ =>
      generate_fallback_explanation context.region context.flower_common context.ndvi_score context

/-- Fixed status→abundance table of `_build_response` (Python `abundance_map`). -/
def abundance_map : String → Option String
  | "active" => some "high"
  | "upcoming" => some "medium"
  | "past" => some "low"
  | "not_suitable" => some "none"
  | "unknown" => some "medium"
  | _ => none

/-- Terminal response of `orchestrate`.  The `meta_error` and `meta_fallback`
fields model the metadata keys that only `_build_fallback_response` writes
(`none` / `false` means the key is absent). -/
structure OrchResponse where
  region : String
  flower_common : String
  flower_scientific : String
  ndvi_score : Rat
  abundance_level : String
  season : String
  climate : String
  known_bloom_period : String
  notes : String
  explanation : String
  factors : List String
  web_summary : String
  web_source_count : Nat
  web_sources : List SearchResult
  meta_timestamp : String
  meta_processing_time_ms : Nat
  meta_llm_used : Bool
  meta_search_available : Bool
  meta_error : Option String := none
  meta_fallback : Bool := false
  deriving Repr, DecidableEq

/-- Embedding of `BloomExplanationOrchestrator._build_response`. -/
def build_response (region flower explanation : String) (context : Ctx)
    (search_result : WebSearchOut) (llmUsed : Bool) (nowIso : String)
    (elapsedMs : Nat) : OrchResponse :=
  let bloom_data := extract_bloom_data_from_search search_result.raw_results flower region
  -- `bloom_data.get("abundance", "medium")`: the key is always present
  let abundance0 := bloom_data.abundance
  let abundance_level :=
    if abundance0 = "unknown" then
      (abundance_map bloom_data.bloom_status).getD "medium"
    else abundance0
  let climate :=
    match context.climate with
    | none => "Climate data not available"
    | some cd =>
      "Temperature: " ++ cd.temperature.getD "N/A" ++ "Â°C, Precipitation: " ++
      cd.precipitation.getD "N/A" ++ "mm"
  { region := region
    flower_common := flower
    flower_scientific := context.flower_scientific
    ndvi_score := context.ndvi_score
    abundance_level := abundance_level
    -- `bloom_data.get("season", context['season'])`: the `season` key is
    -- always present, so the context default is dead code
    season := bloom_data.season
    climate := climate
    known_bloom_period := bloom_data.season
    notes := context.notes
    explanation := explanation
    factors :=
      ["Temperature and seasonal variations",
       "Precipitation and water availability",
       "Day length (photoperiod)",
       "Soil composition and nutrients",
       "Pollinator populations",
       "Regional climate patterns"]
    web_summary := search_result.synthesis
    web_source_count := search_result.result_count.getD 0
    web_sources := search_result.raw_results.take 3
    meta_timestamp := nowIso
    meta_processing_time_ms := elapsedMs
    meta_llm_used := llmUsed
    meta_search_available := search_result.result_count.getD 0 > 0
    meta_error := none
    meta_fallback := false }

/-- Embedding of `BloomExplanationOrchestrator._build_fallback_response`. -/
def build_fallback_response (region flower : String) (ndvi_score : Rat)
    (error : String) (month year : Nat) (nowIso : String) (elapsedMs : Nat) : OrchResponse :=
  let flower_lower := strLower flower
  let scientific :=
    match flowerDatabase flower_lower with
    | some fi => fi.scientific
    | none => "Unknown species"
  let bloom_period :=
    match flowerDatabase flower_lower with
    | some fi => fi.bloom_period
    | none => "Varies by region"
  let abundance := get_abundance_level ndvi_score
  let notes :=
    if ndvi_score ≥ 0.7 then "Peak blooming observed"
    else if ndvi_score ≥ 0.4 then "Active bloom period"
    else "Limited vegetation activity"
  let fallback_explanation :=
    "Based on satellite vegetation data, " ++ flower ++ " shows " ++ abundance ++
    " bloom activity in " ++ region ++ " (NDVI: " ++ ratRepr ndvi_score ++ "). \n        \n" ++
    "The current conditions suggest " ++
    (if ndvi_score ≥ 0.7 then "optimal" else if ndvi_score ≥ 0.4 then "moderate" else "limited") ++
    " flowering patterns. Bloom timing is influenced by temperature, precipitation, day length, and local climate conditions. This species typically blooms during " ++
    bloom_period ++ ".\n\nFor detailed analysis, please ensure API services are properly configured."
  { region := region
    flower_common := flower
    flower_scientific := scientific
    ndvi_score := ndvi_score
    abundance_level := abundance
    season := get_current_season month ++ " " ++ toString year
    climate := "Climate data not available"
    known_bloom_period := bloom_period
    notes := notes
    explanation := fallback_explanation
    factors :=
      ["Temperature and seasonal variations",
       "Precipitation and water availability",
       "Day length (photoperiod)"]
    web_summary := "Search unavailable"
    web_source_count := 0
    web_sources := []
    meta_timestamp := nowIso
    meta_processing_time_ms := elapsedMs
    meta_llm_used := false
    meta_search_available := false
    meta_error := some error
    meta_fallback := true }

/-- Embedding of `BloomExplanationOrchestrator.orchestrate`.  The deadline
expiry and the two gathered tasks returning exception objects are branches on
the environment; every branch ends in a response, mirroring the source's
`try`/`except` structure (the outer handler catches the `TypeError` that the
unchecked context-task exception object provokes at its first subscript). -/
def orchestrate (env : OrchEnv) (region flower : String) (ndvi_score : Rat)
    (coordinates : Option (Rat × Rat)) (climate_data : Option ClimateData)
    (date : Option String) (use_mock_search : Bool) (max_search_results : Nat) : OrchResponse :=
  if env.timedOut then
    build_fallback_response region flower ndvi_score "Timeout"
      env.monthNow env.yearNow env.nowIso env.elapsedMs
  else
    match env.contextTaskRaise with
    | some _ =>
      build_fallback_response region flower ndvi_score
        "TypeError: argument of type Exception is not subscriptable"
        env.monthNow env.yearNow env.nowIso env.elapsedMs
    | none =>
      let context :=
        prepare_explanation_context region flower ndvi_score coordinates climate_data date
          none env.monthNow env.yearNow env.nowIso
      let search_result :=
        match env.searchTaskRaise with
        | some e =>
          { raw_results := []
            synthesis := "Web search temporarily unavailable"
            result_count := none
            error := some e : WebSearchOut }
        | none => run_web_search env region flower use_mock_search max_search_results
      let web_synthesis := search_result.synthesis
      let explanation := generate_explanation env context web_synthesis
      build_response region flower explanation context search_result env.hasLLM
        env.nowIso env.elapsedMs

/-! ## Region ranking (`web_search_agent.extract_top_regions_from_search`)

The eight location regexes all have one of two shapes: a literal followed by
the capture `([A-Z][a-z]+(?:\s+[A-Z][a-z]+)*)`, or that capture followed by a
literal.  The capture is greedy; for the trailing-literal shape the engine
backtracks over the number of word groups, so the match keeps the longest
capture whose remainder starts with the literal.  `re.findall` scans left to
right and resumes after each non-overlapping match. -/

/-- ASCII range `[A-Z]` of the location regexes. -/
def isUpperAZ (c : Char) : Bool := 'A' ≤ c && c ≤ 'Z'

/-- ASCII range `[a-z]` of the location regexes. -/
def isLowerAZ (c : Char) : Bool := 'a' ≤ c && c ≤ 'z'

/-- Parse one capitalized word `[A-Z][a-z]+` (greedy on the lower-case run);
returns the word and the remainder. -/
def parseCapWord : List Char → Option (List Char × List Char)
  | [] => none
  | c :: rest =>
    if isUpperAZ c then
      let lows := rest.takeWhile isLowerAZ
      if lows.isEmpty then none else some (c :: lows, rest.drop lows.length)
    else none

/-- All capture checkpoints from an already-parsed first word: after each
further `\s+` + word group one more checkpoint, shortest first.  The fuel is
the remaining text length, which bounds the number of groups. -/
def capCheckpoints : Nat → List Char → List Char → List (List Char × List Char)
  | 0, cap, rest => [(cap, rest)]
  | fuel + 1, cap, rest =>
    let ws := rest.takeWhile isWsChar
    if ws.isEmpty then [(cap, rest)]
    else
      match parseCapWord (rest.drop ws.length) with
      | none => [(cap, rest)]
      | some (w, rest') => (cap, rest) :: capCheckpoints fuel (cap ++ ws ++ w) rest'

/-- Capture attempts of `([A-Z][a-z]+(?:\s+[A-Z][a-z]+)*)` at the head of the
text, shortest first; empty when no capitalized word starts here. -/
def capMatches (cs : List Char) : List (List Char × List Char) :=
  match parseCapWord cs with
  | none => []
  | some (w, rest) => capCheckpoints rest.length w rest

/-- Shape of one location regex: literal before the capture, or literal after it. -/
inductive LocPattern where
  | leadingLit (lit : String)
  | trailingLit (lit : String)
  deriving Repr, DecidableEq

/-- Match attempt of one location regex anchored at the head of the text,
returning the capture and the remainder after the whole match.  The greedy
capture takes the longest checkpoint; with a trailing literal it backtracks to
the longest checkpoint whose remainder starts with the literal. -/
def matchAt : LocPattern → List Char → Option (List Char × List Char)
  | .leadingLit lit, cs =>
    let l := lit.toList
    if startsWithChars l cs then
      (capMatches (cs.drop l.length)).getLast?
    else none
  | .trailingLit lit, cs =>
    let l := lit.toList
    match (capMatches cs).reverse.find? (fun p => startsWithChars l p.2) with
    | none => none
    | some (cap, rest) => some (cap, rest.drop l.length)

/-- Scan loop of `re.findall`: try the regex at each position, emit the capture
of every non-overlapping match.  Every step consumes at least one character, so
the text length is enough fuel. -/
def findallGo (p : LocPattern) : Nat → List Char → List String → List String
  | 0, _, acc => acc.reverse
  | _, [], acc => acc.reverse
  | fuel + 1, cs, acc =>
    match matchAt p cs with
    | some (cap, rest) => findallGo p fuel rest (String.mk cap :: acc)
    | none => findallGo p fuel (cs.drop 1) acc

/-- Model of `re.findall(pattern, text)` for one location regex. -/
def findall (p : LocPattern) (text : String) : List String :=
  findallGo p text.toList.length text.toList []

/-- The fixed `location_patterns` list, in source order. -/
def location_patterns : List LocPattern :=
  [.leadingLit "in ", .leadingLit "at ", .leadingLit "near ",
   .trailingLit " region", .trailingLit " valley", .trailingLit " district",
   .trailingLit " province", .trailingLit " state"]

/-- Insert one occurrence into an insertion-ordered counter
(model of `collections.Counter` fed from a list). -/
def counterAdd (m : List (String × Nat)) (k : String) : List (String × Nat) :=
  if m.any (fun kv => kv.1 = k) then
    m.map (fun kv => if kv.1 = k then (kv.1, kv.2 + 1) else kv)
  else m ++ [(k, 1)]

/-- Model of `Counter(found_regions)`: counts keyed in first-occurrence order. -/
def counterOf (ks : List String) : List (String × Nat) :=
  ks.foldl counterAdd []

/-- The `stop_words` set of `extract_top_regions_from_search`. -/
def stop_words : List String :=
  ["The", "This", "That", "These", "Those", "Many", "Some", "Most",
   "Each", "Every", "All", "Both", "Few", "More", "Other"]

/-- The combined `all_text` of `extract_top_regions_from_search`:
`" ".join(f"{title} {snippet}")` over the results. -/
def regionsAllText (search_results : List SearchResult) : String :=
  String.intercalate " " (search_results.map (fun r => r.title ++ " " ++ r.snippet))

/-- The `found_regions` list: every pattern's `findall` captures, concatenated
in pattern order. -/
def foundRegions (all_text : String) : List String :=
  location_patterns.foldl (fun acc p => acc ++ findall p all_text) []

/-- A ranked region candidate (the dict shape of both
`extract_top_regions_from_search` and the `RegionInfo` API model). -/
structure RegionCandidate where
  name : String
  country : String
  full_name : String
  mentions : Nat
  confidence : Rat
  coordinates : Option (Rat × Rat)
  needs_geocoding : Bool
  note : Option String := none
  deriving Repr, DecidableEq

/-- Successful output shape of the region extraction. -/
structure TopRegionsOut where
  country : String
  flower : String
  top_regions : List RegionCandidate
  total_sources : Nat
  extraction_method : String
  deriving Repr, DecidableEq

/-- Embedding of `extract_top_regions_from_search`.  After
`region_counts = Counter(found_regions)` the source rebinds `region_counts` to
a plain dict through the stop-word comprehension and then calls
`region_counts.most_common(5)` — an attribute a plain dict does not have, so
every call raises `AttributeError`; the remainder of the source body is
unreachable. -/
def extract_top_regions_from_search
    (search_results : List SearchResult) (flower country : String) :
    Except String TopRegionsOut :=
  let all_text := regionsAllText search_results
  let found_regions := foundRegions all_text
  let region_counts := counterOf found_regions
  let region_counts' := region_counts.filter (fun kv => !stop_words.contains kv.1)
  Except.error "AttributeError: \x27dict\x27 object has no attribute \x27most_common\x27"

/-- Selection loop of `Counter.most_common`: repeatedly take the
first-encountered entry of maximal count. -/
def mostCommonGo : Nat → List (String × Nat) → List (String × Nat)
  | 0, _ => []
  | _, [] => []
  | fuel + 1, m =>
    let maxC := m.foldl (fun a kv => max a kv.2) 0
    match m.find? (fun kv => kv.2 = maxC) with
    | none => []
    | some kv => kv :: mostCommonGo fuel (m.eraseP (fun e => e.1 = kv.1))

/-- Model of `Counter.most_common(n)`: count descending, ties in
first-encountered order. -/
def counter_most_common (m : List (String × Nat)) (n : Nat) : List (String × Nat) :=
  (mostCommonGo m.length m).take n

/-- The region-ranking pipeline as the surrounding code and the spec intend it:
identical to `extract_top_regions_from_search` up to the stop-word filtering,
but with the counter kept as a counter so that `most_common(5)` is meaningful,
then the candidate build, the confidence formula
`min(mentions / len(search_results) * 100, 100)` and the country-level
fallback candidate of the source's unreachable tail. -/
def extract_top_regions_intended
    (search_results : List SearchResult) (flower country : String) : TopRegionsOut :=
  let all_text := regionsAllText search_results
  let found_regions := foundRegions all_text
  let region_counts := counterOf found_regions
  let region_counts' := region_counts.filter (fun kv => !stop_words.contains kv.1)
  let top_regions_list := counter_most_common region_counts' 5
  let regions_with_data : List RegionCandidate :=
    top_regions_list.map (fun kv =>
      { name := kv.1
        country := country
        full_name := kv.1 ++ ", " ++ country
        mentions := kv.2
        confidence :=
          if search_results.length ≠ 0 then
            min ((kv.2 : Rat) / (search_results.length : Rat) * 100) 100
          else 0
        coordinates := none
        needs_geocoding := true
        note := none })
  let regions_with_data :=
    if regions_with_data.isEmpty then
      [{ name := country
         country := country
         full_name := country
         mentions := 0
         confidence := 50
         coordinates := none
         needs_geocoding := true
         note := some "No specific regions identified - showing country level" }]
    else regions_with_data
  { country := country
    flower := flower
    top_regions := regions_with_data.take 5
    total_sources := search_results.length
    extraction_method := "text_analysis" }

/-! ## Geocoding service (`geocoding_service.py`) -/

/-- Embedding of `normalize_region_name`: lower-case, strip, drop every
character outside `[a-z\s]`. -/
def normalize_region_name (name : String) : String :=
  String.mk ((pyStrip (strLower name)).toList.filter (fun c => isLowerAZ c || isWsChar c))

/-- Embedding of `REGION_COORDINATES`, in source (insertion) order. -/
def region_coordinates : List (String × (Rat × Rat)) :=
  [("kashmir", (75.0, 34.0)),
   ("kashmir valley", (74.8, 34.1)),
   ("srinagar", (74.8, 34.1)),
   ("kerala", (76.5, 10.5)),
   ("munnar", (77.06, 10.09)),
   ("ooty", (76.69, 11.41)),
   ("uttarakhand", (79.0, 30.3)),
   ("valley of flowers", (79.6, 30.7)),
   ("himalayan", (80.0, 30.0)),
   ("western ghats", (76.0, 15.0)),
   ("rajasthan", (73.0, 27.0)),
   ("tamil nadu", (78.0, 11.0)),
   ("karnataka", (76.0, 15.0)),
   ("bangalore", (77.6, 12.97)),
   ("coorg", (75.8, 12.4)),
   ("sikkim", (88.6, 27.6)),
   ("assam", (92.9, 26.2)),
   ("meghalaya", (91.4, 25.5)),
   ("california", (-119.4, 36.8)),
   ("oregon", (-120.5, 44.0)),
   ("washington", (-120.7, 47.5)),
   ("texas", (-99.9, 31.5)),
   ("florida", (-81.5, 28.0)),
   ("arizona", (-111.7, 34.5)),
   ("colorado", (-105.5, 39.0)),
   ("new york", (-75.0, 43.0)),
   ("vermont", (-72.6, 44.0)),
   ("alaska", (-152.0, 64.0)),
   ("tokyo", (139.7, 35.7)),
   ("kyoto", (135.8, 35.0)),
   ("osaka", (135.5, 34.7)),
   ("hokkaido", (142.0, 43.0)),
   ("okinawa", (127.7, 26.3)),
   ("provence", (5.4, 43.9)),
   ("tuscany", (11.3, 43.4)),
   ("andalusia", (-4.5, 37.5)),
   ("netherlands", (5.3, 52.1)),
   ("scotland", (-4.2, 56.5)),
   ("yunnan", (101.0, 25.0)),
   ("sichuan", (103.0, 30.5)),
   ("tibet", (91.0, 31.0)),
   ("xinjiang", (87.0, 43.0)),
   ("amazon", (-62.0, -3.0)),
   ("sahara", (9.0, 23.0)),
   ("madagascar", (46.7, -19.0)),
   ("new zealand", (174.0, -41.0))]

/-- Embedding of `get_coordinates_from_database`: direct match, then partial
(either-direction substring) match in dict order, then the same partial match
against `"{normalized} {country}"`. -/
def get_coordinates_from_database (region_name : String) (country : Option String) :
    Option (Rat × Rat) :=
  let normalized := normalize_region_name region_name
  match region_coordinates.find? (fun kv => kv.1 = normalized) with
  | some kv => some kv.2
  | none =>
    match region_coordinates.find? (fun kv => pyIn normalized kv.1 || pyIn kv.1 normalized) with
    | some kv => some kv.2
    | none =>
      match country with
      | some c =>
        let combined := normalized ++ " " ++ normalize_region_name c
        match region_coordinates.find? (fun kv => pyIn kv.1 combined || pyIn combined kv.1) with
        | some kv => some kv.2
        | none => none
      | none => none

/-- Embedding of the `country_centers` table of `estimate_country_center`. -/
def country_centers : List (String × (Rat × Rat)) :=
  [("india", (78.0, 22.0)),
   ("usa", (-98.0, 39.0)),
   ("united states", (-98.0, 39.0)),
   ("china", (104.0, 35.0)),
   ("japan", (138.0, 36.0)),
   ("france", (2.3, 46.6)),
   ("germany", (10.4, 51.1)),
   ("italy", (12.6, 42.8)),
   ("spain", (-3.7, 40.4)),
   ("uk", (-3.4, 55.4)),
   ("united kingdom", (-3.4, 55.4)),
   ("australia", (133.8, -25.3)),
   ("brazil", (-51.9, -14.2)),
   ("canada", (-106.3, 56.1)),
   ("mexico", (-102.6, 23.6)),
   ("russia", (105.3, 61.5)),
   ("south africa", (25.0, -29.0)),
   ("netherlands", (5.3, 52.1)),
   ("switzerland", (8.2, 46.8)),
   ("austria", (14.6, 47.5)),
   ("norway", (8.5, 60.5)),
   ("sweden", (18.6, 60.1)),
   ("finland", (25.7, 61.9))]

/-- Embedding of `estimate_country_center`. -/
def estimate_country_center (country : String) : Option (Rat × Rat) :=
  (country_centers.find? (fun kv => kv.1 = normalize_region_name country)).map (fun kv => kv.2)

/-- Embedding of `geocode_region`: built-in database first, then the country
center, else `None` (the external geocoding API of the comment is not wired). -/
def geocode_region (region_name : String) (country : Option String) : Option (Rat × Rat) :=
  match get_coordinates_from_database region_name country with
  | some coords => some coords
  | none =>
    match country with
    | some c => estimate_country_center c
    | none => none

/-- One iteration of the `geocode_regions` loop on a single candidate:
skip candidates that already carry coordinates; otherwise fill coordinates and
clear `needs_geocoding` on success, or set `needs_geocoding` on failure. -/
def geocodeStep (r : RegionCandidate) : RegionCandidate :=
  if r.coordinates.isNone then
    match geocode_region r.name (some r.country) with
    | some coords => { r with coordinates := some coords, needs_geocoding := false }
    | none => { r with needs_geocoding := true }
  else r

/-- Embedding of `geocode_regions`: the in-place `for region in regions` loop,
written as the structurally identical element-wise traversal. -/
def geocode_regions : List RegionCandidate → List RegionCandidate
  | [] => []
  | r :: rest => geocodeStep r :: geocode_regions rest

/-! ## Claim-level definitions -/

/-- Structural completeness of a response, as §7 of the spec words it: the
abundance field holds one of the four tiers and the season and explanation
fields are populated (non-empty). -/
def responseComplete (r : OrchResponse) : Bool :=
  (["high", "medium", "low", "none"] : List String).contains r.abundance_level &&
  !(r.season == "") && !(r.explanation == "")

/-- Season classification as the amended claim C6 words it: at least two
distinct months give a range over the first and last matching month of the
fixed January-to-December list, exactly one gives that month, else the season
keywords in priority order, else `"Varies by region"`. -/
def seasonSpecC6 (text : String) : String :=
  let fm := monthNames.filter (fun m => pyIn m text)
  if 2 ≤ fm.length then
    pyCapitalize (fm.headD "") ++ "-" ++ pyCapitalize (fm.getLastD "")
  else if fm.length = 1 then pyCapitalize (fm.headD "")
  else if pyIn "spring" text then "Spring"
  else if pyIn "summer" text then "Summer"
  else if pyIn "fall" text || pyIn "autumn" text then "Autumn"
  else if pyIn "winter" text then "Winter"
  else if pyIn "monsoon" text then "Monsoon"
  else "Varies by region"

/-- A seven-source corpus whose text mentions `"Kashmir Valley"` five times and
`"Srinagar"` twice, each mention preceded by `"in "` so the location regexes
can capture it (the spec's claim-C7 scenario with country `"India"`). -/
def kashmirCorpus : List SearchResult :=
  [{ title := "tulip news", snippet := "Tulips bloom in Kashmir Valley" },
   { title := "tulip news", snippet := "Gardens in Kashmir Valley attract visitors" },
   { title := "tulip news", snippet := "Farmers in Kashmir Valley plant bulbs" },
   { title := "tulip news", snippet := "Fields in Kashmir Valley glow red" },
   { title := "tulip news", snippet := "Festivals in Kashmir Valley celebrate tulips" },
   { title := "tulip news", snippet := "Parks in Srinagar show tulips" },
   { title := "tulip news", snippet := "Visitors in Srinagar admire tulips" }]

/-- Five region candidates for the geocoding scenario of claim C8: four are in
the coordinate database (or resolvable via the country center), the fifth
resolves nowhere. -/
def geoFive : List RegionCandidate :=
  [{ name := "Kashmir Valley", country := "India", full_name := "Kashmir Valley, India",
     mentions := 5, confidence := 100, coordinates := none, needs_geocoding := true },
   { name := "Srinagar", country := "India", full_name := "Srinagar, India",
     mentions := 2, confidence := 40, coordinates := none, needs_geocoding := true },
   { name := "Munnar", country := "India", full_name := "Munnar, India",
     mentions := 2, confidence := 40, coordinates := none, needs_geocoding := true },
   { name := "Coorg", country := "India", full_name := "Coorg, India",
     mentions := 1, confidence := 20, coordinates := none, needs_geocoding := true },
   { name := "Zzyzx Qwv", country := "Atlantis", full_name := "Zzyzx Qwv, Atlantis",
     mentions := 1, confidence := 20, coordinates := none, needs_geocoding := true }]

/-- Environment of the claim-C9 scenario: both search provider keys unset, no
LLM, no sub-unit failure, deadline not hit. -/
def c9Env : OrchEnv :=
  { hasLLM := false, serpapiKey := "", newsapiKey := "" }

/-! ## Supporting lemmas -/

/-- Appending to a non-empty string on the left keeps it non-empty. -/
theorem ne_empty_of_append_left (a b : String) (h : a ≠ "") : a ++ b ≠ "" := by
  cases a with
  | mk da =>
    cases b with
    | mk db =>
      intro hc
      apply h
      have hd : da ++ db = [] := congrArg String.data hc
      rcases List.append_eq_nil.mp hd with ⟨h1, _⟩
      exact congrArg String.mk h1

/-- Appending to a non-empty string on the right keeps it non-empty. -/
theorem ne_empty_of_append_right (a b : String) (h : b ≠ "") : a ++ b ≠ "" := by
  cases a with
  | mk da =>
    cases b with
    | mk db =>
      intro hc
      apply h
      have hd : da ++ db = [] := congrArg String.data hc
      rcases List.append_eq_nil.mp hd with ⟨_, h2⟩
      exact congrArg String.mk h2

/-- Capitalizing a non-empty string gives a non-empty string. -/
theorem pyCapitalize_ne_empty (s : String) (h : s ≠ "") : pyCapitalize s ≠ "" := by
  unfold pyCapitalize
  cases hs : s.toList with
  | nil =>
    exact absurd (congrArg String.mk (by simpa [String.toList] using hs)) (by simpa using h)
  | cons c cs =>
    intro hc
    have : (c.toUpper :: cs.map Char.toLower) = [] := congrArg String.data hc
    exact List.noConfusion this

/-- Every month name is non-empty. -/
theorem monthNames_ne_empty : ∀ m ∈ monthNames, m ≠ "" := by decide

/-- The abundance classifier only produces the four keyword tiers. -/
theorem abundanceOf_mem (text : String) :
    (["high", "medium", "low", "none"] : List String).contains (abundanceOf text) = true := by
  unfold abundanceOf
  repeat' split
  all_goals rfl

/-- The status→abundance table, totalized by `.get(..., "medium")`, only
produces the four tiers. -/
theorem abundance_map_getD_mem (s : String) :
    (["high", "medium", "low", "none"] : List String).contains
      ((abundance_map s).getD "medium") = true := by
  unfold abundance_map
  repeat' split
  all_goals rfl

/-- The NDVI-based abundance default only produces three tiers. -/
theorem get_abundance_level_mem (ndvi : Rat) :
    (["high", "medium", "low"] : List String).contains (get_abundance_level ndvi) = true := by
  unfold get_abundance_level
  repeat' split
  all_goals rfl

/-- The current-season helper never returns the empty string. -/
theorem get_current_season_ne_empty (month : Nat) : get_current_season month ≠ "" := by
  unfold get_current_season
  repeat' split
  all_goals decide

/-- The extractor's season is never the empty string. -/
theorem seasonOf_ne_empty (text : String) : seasonOf text ≠ "" := by
  unfold seasonOf
  split
  · repeat' split
    all_goals decide
  · rename_i m rest heq
    have hm : m ∈ monthNames := by
      have hmem : m ∈ foundMonths text := by rw [heq]; exact List.mem_cons_self m rest
      exact List.mem_of_mem_filter hmem
    have hmne : m ≠ "" := monthNames_ne_empty m hm
    show (if rest.isEmpty then pyCapitalize m
          else pyCapitalize m ++ "-" ++ pyCapitalize ((m :: rest).getLast (List.cons_ne_nil m rest))) ≠ ""
    by_cases hr : rest.isEmpty
    · simp only [hr, if_true]
      exact pyCapitalize_ne_empty m hmne
    · simp only [hr, if_false]
      apply ne_empty_of_append_left
      exact ne_empty_of_append_right _ _ (by decide)

/-- The extracted abundance is `"unknown"` exactly on an empty result list. -/
theorem extract_abundance_unknown_iff (results : List SearchResult) (flower region : String) :
    (extract_bloom_data_from_search results flower region).abundance = "unknown" ↔
      results = [] := by
  unfold extract_bloom_data_from_search
  cases results with
  | nil => simp
  | cons r rs =>
    simp only [List.isEmpty_cons, if_false, Bool.false_eq_true]
    constructor
    · intro h
      have hmem := abundanceOf_mem (combinedText (r :: rs))
      rw [h] at hmem
      exact absurd hmem (by decide)
    · intro h
      exact List.noConfusion h

/-- The extracted abundance is `"unknown"` or one of the four keyword tiers. -/
theorem extract_abundance_cases (results : List SearchResult) (flower region : String) :
    (extract_bloom_data_from_search results flower region).abundance = "unknown" ∨
      (["high", "medium", "low", "none"] : List String).contains
        (extract_bloom_data_from_search results flower region).abundance = true := by
  unfold extract_bloom_data_from_search
  cases results with
  | nil => left; rfl
  | cons r rs => right; exact abundanceOf_mem _

/-- The extracted season is never the empty string. -/
theorem extract_season_ne_empty (results : List SearchResult) (flower region : String) :
    (extract_bloom_data_from_search results flower region).season ≠ "" := by
  unfold extract_bloom_data_from_search
  cases results with
  | nil => decide
  | cons r rs => exact seasonOf_ne_empty _

/-- The deterministic fallback explanation is never the empty string. -/
theorem generate_fallback_explanation_ne_empty
    (region flower : String) (ndvi : Rat) (context : Ctx) :
    generate_fallback_explanation region flower ndvi context ≠ "" := by
  unfold generate_fallback_explanation
  repeat' apply ne_empty_of_append_left
  decide

/-- Any response assembled by `_build_response` from a non-empty explanation is
structurally complete. -/
theorem build_response_complete (region flower explanation : String) (context : Ctx)
    (sr : WebSearchOut) (llmUsed : Bool) (nowIso : String) (ms : Nat)
    (hx : explanation ≠ "") :
    responseComplete (build_response region flower explanation context sr llmUsed nowIso ms) = true := by
  unfold responseComplete build_response
  dsimp only
  rw [Bool.and_eq_true, Bool.and_eq_true]
  refine ⟨⟨?_, ?_⟩, ?_⟩
  · rcases extract_abundance_cases sr.raw_results flower region with h | h
    · rw [if_pos h]
      exact abundance_map_getD_mem _
    · have hne : (extract_bloom_data_from_search sr.raw_results flower region).abundance ≠ "unknown" := by
        intro he
        rw [he] at h
        exact absurd h (by decide)
      rw [if_neg hne]
      exact h
  · simp only [Bool.not_eq_true', beq_eq_false_iff_ne, ne_eq]
    exact extract_season_ne_empty sr.raw_results flower region
  · simp only [Bool.not_eq_true', beq_eq_false_iff_ne, ne_eq]
    exact hx

/-- Any response assembled by `_build_fallback_response` is structurally
complete. -/
theorem build_fallback_response_complete (region flower : String) (ndvi : Rat)
    (error : String) (month year : Nat) (nowIso : String) (ms : Nat) :
    responseComplete (build_fallback_response region flower ndvi error month year nowIso ms) = true := by
  unfold responseComplete build_fallback_response
  dsimp only
  rw [Bool.and_eq_true, Bool.and_eq_true]
  refine ⟨⟨?_, ?_⟩, ?_⟩
  · have h := get_abundance_level_mem ndvi
    unfold get_abundance_level at h ⊢
    repeat' split
    all_goals rfl
  · simp only [Bool.not_eq_true', beq_eq_false_iff_ne, ne_eq]
    apply ne_empty_of_append_left
    exact ne_empty_of_append_right _ _ (by decide)
  · simp only [Bool.not_eq_true', beq_eq_false_iff_ne, ne_eq]
    repeat' apply ne_empty_of_append_left
    decide

/-- The explanation produced by `_generate_explanation` is non-empty whenever
a successful crew run returns non-whitespace text (the fallback paths are
non-empty unconditionally). -/
theorem generate_explanation_ne_empty (env : OrchEnv) (context : Ctx) (ws : String)
    (hcrew : ∀ s, env.crewExplanation = Except.ok s → pyStrip s ≠ "") :
    generate_explanation env context ws ≠ "" := by
  unfold generate_explanation
  split
  · exact generate_fallback_explanation_ne_empty _ _ _ _
  · cases hc : env.crewExplanation with
    | ok s => exact hcrew s hc
    | error e => exact generate_fallback_explanation_ne_empty _ _ _ _

/-- On a non-empty list headed by `m`, `getLastD` agrees with `getLast`. -/
theorem getLastD_cons_eq_getLast (l : List String) (m d : String) :
    (m :: l).getLastD d = (m :: l).getLast (List.cons_ne_nil m l) := by
  induction l generalizing m with
  | nil => rfl
  | cons a t ih => exact ih a

/-- The source's season classifier agrees with the amended claim C6's reading
of it. -/
theorem seasonOf_eq_seasonSpecC6 (text : String) : seasonOf text = seasonSpecC6 text := by
  unfold seasonOf seasonSpecC6 foundMonths
  cases hfm : monthNames.filter (fun m => pyIn m text) with
  | nil => rfl
  | cons m rest =>
    cases rest with
    | nil => rfl
    | cons m2 rest2 =>
      have hlen : 2 ≤ (m :: m2 :: rest2).length := by
        simp only [List.length_cons]
        omega
      dsimp only
      rw [if_pos hlen, getLastD_cons_eq_getLast]
      simp only [List.isEmpty_cons]
      rw [if_neg (by simp)]
      rfl

/-- The abundance table is defined on every status the extractor can produce. -/
theorem abundance_map_covers_status (results : List SearchResult) (flower region : String) :
    (abundance_map (extract_bloom_data_from_search results flower region).bloom_status).isSome
      = true := by
  unfold extract_bloom_data_from_search
  cases results with
  | nil => rfl
  | cons r rs =>
    show (abundance_map (bloomStatusOf (combinedText (r :: rs)))).isSome = true
    unfold bloomStatusOf
    repeat' split
    all_goals rfl

/-! ## Claims -/

/-- Claim C1: for every input (region, flower, ndvi score, optional
coordinates, climate data, date, search-mode flag) and for every environment —
any combination of provider failures, a raising search task, the unchecked
exception object of the context task, a raising synthesis crew, and the
deadline expiring — `orchestrate` terminates in a structurally complete
response: the abundance field holds one of the four tiers and the season and
explanation fields are non-empty, failures surfacing only in the response
metadata.  The one proviso is that a *successful* crew run returns
non-whitespace text (its stripped output is the explanation verbatim). -/
theorem claim_C1_orchestrate_always_complete
    (env : OrchEnv) (region flower : String) (ndvi_score : Rat)
    (coordinates : Option (Rat × Rat)) (climate_data : Option ClimateData)
    (date : Option String) (use_mock_search : Bool) (max_search_results : Nat)
    (hcrew : ∀ s, env.crewExplanation = Except.ok s → pyStrip s ≠ "") :
    responseComplete
      (orchestrate env region flower ndvi_score coordinates climate_data date
        use_mock_search max_search_results) = true := by
  unfold orchestrate
  split
  · exact build_fallback_response_complete _ _ _ _ _ _ _ _
  · split
    · exact build_fallback_response_complete _ _ _ _ _ _ _ _
    · exact build_response_complete _ _ _ _ _ _ _ _
        (generate_explanation_ne_empty env _ _ hcrew)

/-- Witness for claim C1 at a concrete input: both provider keys empty, no
LLM (so the crew hypothesis is vacuous), mock search substituted. -/
theorem claim_C1_witness :
    (∀ s, ({ hasLLM := false, serpapiKey := "", newsapiKey := "" } : OrchEnv).crewExplanation
        = Except.ok s → pyStrip s ≠ "") ∧
    responseComplete
      (orchestrate { hasLLM := false, serpapiKey := "", newsapiKey := "" }
        "Kashmir" "tulip" 0.7 none none none false 5) = true :=
  ⟨fun _ h => Except.noConfusion h,
   claim_C1_orchestrate_always_complete _ "Kashmir" "tulip" 0.7 none none none false 5
     (fun _ h => Except.noConfusion h)⟩

/-- Claim C2 counterexample: on the empty result list the extractor returns
season `"Data not available"` (not `"varies by region"`) and abundance
`"unknown"` (not `"medium"`). -/
theorem claim_C2_counterexample :
    (extract_bloom_data_from_search [] "lotus" "India").season ≠ "varies by region" ∧
    (extract_bloom_data_from_search [] "lotus" "India").abundance ≠ "medium" ∧
    (extract_bloom_data_from_search [] "lotus" "India").season = "Data not available" ∧
    (extract_bloom_data_from_search [] "lotus" "India").abundance = "unknown" := by
  refine ⟨?_, ?_, rfl, rfl⟩ <;> decide

/-- Claim C2 (amended): applying the extractor to an empty result sequence
yields exactly bloom status `"unknown"`, season `"Data not available"`,
abundance `"unknown"`, source count `0` (and the fixed no-research summary,
with no combined-analysis entry). -/
theorem claim_C2_amended (flower region : String) :
    extract_bloom_data_from_search [] flower region =
      { text_summary := "No recent web research available."
        bloom_status := "unknown"
        season := "Data not available"
        abundance := "unknown"
        sources_count := 0
        combined_analysis := none } := rfl

/-- Claim C6 counterexample: on a corpus matching no month and no season
keyword the extracted season is `"Varies by region"`, which differs from the
claim's literal `"varies by region"`. -/
theorem claim_C6_counterexample :
    (extract_bloom_data_from_search
        [{ title := "Flower report", snippet := "no keywords here" }]
        "rose" "France").season = "Varies by region" ∧
    ("Varies by region" : String) ≠ "varies by region" := by
  exact ⟨rfl, by decide⟩

/-- Claim C6 (amended): on any non-empty result list the extracted season
follows exactly the claimed procedure — at least two distinct month names give
a start–end range over the first and last matching month of the fixed
January-to-December list (not text order), exactly one month gives that month,
otherwise the season keywords in the fixed priority order spring, summer,
autumn, winter, monsoon, and otherwise `"Varies by region"` (capital V, where
the original claim wrote `"varies by region"`). -/
theorem claim_C6_amended (results : List SearchResult) (flower region : String)
    (h : results ≠ []) :
    (extract_bloom_data_from_search results flower region).season
        = seasonSpecC6 (combinedText results) ∧
    ∀ text, seasonOf text = seasonSpecC6 text := by
  constructor
  · cases results with
    | nil => exact absurd rfl h
    | cons r rs => exact seasonOf_eq_seasonSpecC6 _
  · exact seasonOf_eq_seasonSpecC6

/-- Witness for claim C6 (amended) at a concrete two-month corpus. -/
theorem claim_C6_amended_witness :
    ([({ title := "Bloom calendar", snippet := "flowers from March to May" } : SearchResult)] ≠
        ([] : List SearchResult)) ∧
    (extract_bloom_data_from_search
        [{ title := "Bloom calendar", snippet := "flowers from March to May" }]
        "tulip" "Kashmir").season
      = seasonSpecC6 (combinedText
          [{ title := "Bloom calendar", snippet := "flowers from March to May" }]) :=
  ⟨by decide,
   (claim_C6_amended
      [{ title := "Bloom calendar", snippet := "flowers from March to May" }]
      "tulip" "Kashmir" (by decide)).1⟩

/-- Claim C7 (code-bug evaluation): on the spec's Kashmir Valley corpus — and
indeed on every input — `extract_top_regions_from_search` raises
`AttributeError`, because the stop-word comprehension rebinds the `Counter` to
a plain dict before `most_common(5)` is called; the caller catches this and
returns an empty region list with an error, never the claimed ranking. -/
theorem claim_C7_code_bug_eval :
    extract_top_regions_from_search kashmirCorpus "tulip" "India" =
      Except.error "AttributeError: \x27dict\x27 object has no attribute \x27most_common\x27" := rfl

/-- The ranking pipeline as intended (counter kept) does satisfy the spec's
scenario: Kashmir Valley tops the list with 5 mentions and confidence
`min(5/7*100, 100) = 500/7`. -/
theorem intended_ranking_kashmir_scenario :
    (extract_top_regions_intended kashmirCorpus "tulip" "India").top_regions.map
        (fun c => (c.name, c.mentions, c.needs_geocoding)) =
      [("Kashmir Valley", 5, true), ("Srinagar", 2, true)] ∧
    (extract_top_regions_intended kashmirCorpus "tulip" "India").top_regions.map
        (fun c => c.confidence) =
      [min (((5 : Nat) : Rat) / ((7 : Nat) : Rat) * 100) 100,
       min (((2 : Nat) : Rat) / ((7 : Nat) : Rat) * 100) 100] ∧
    (extract_top_regions_intended kashmirCorpus "tulip" "India").total_sources = 7 ∧
    min (((5 : Nat) : Rat) / ((7 : Nat) : Rat) * 100) 100 = 500 / 7 := by
  refine ⟨by decide, rfl, rfl, ?_⟩
  rw [min_eq_left (by norm_num)]
  norm_num

/-- Claim C3 counterexample: with the search task failing (so the error dict
with empty raw results reaches `_build_response`), the response's season and
known-bloom-period are `"Data not available"`, not the static context values
(`"Winter 2025"` and `"March to May"` for a tulip in January 2025) the claim
requires in the search-failed case. -/
theorem claim_C3_counterexample :
    (orchestrate { hasLLM := false, serpapiKey := "k", newsapiKey := "",
                   searchTaskRaise := some "boom" }
        "Kashmir" "tulip" 0.7 none none none false 5).season = "Data not available" ∧
    (orchestrate { hasLLM := false, serpapiKey := "k", newsapiKey := "",
                   searchTaskRaise := some "boom" }
        "Kashmir" "tulip" 0.7 none none none false 5).known_bloom_period = "Data not available" ∧
    (prepare_explanation_context "Kashmir" "tulip" 0.7 none none none none 1 2025 "").season
      = "Winter 2025" ∧
    (prepare_explanation_context "Kashmir" "tulip" 0.7 none none none none 1 2025 "").known_bloom_period
      = "March to May" ∧
    ("Data not available" : String) ≠ "Winter 2025" ∧
    ("Data not available" : String) ≠ "March to May" := by
  refine ⟨rfl, rfl, rfl, rfl, ?_, ?_⟩ <;> decide

/-- Claim C3 (amended): the assembled response's season and known-bloom-period
always equal the season extracted from the search results — the context's
static values are never consulted by `_build_response` (its `.get` default is
dead because the extractor always supplies the key); in particular a failed or
empty search yields `"Data not available"`, not the knowledge-base value. -/
theorem claim_C3_amended (region flower explanation : String) (context : Ctx)
    (sr : WebSearchOut) (llmUsed : Bool) (nowIso : String) (ms : Nat) :
    (build_response region flower explanation context sr llmUsed nowIso ms).season
        = (extract_bloom_data_from_search sr.raw_results flower region).season ∧
    (build_response region flower explanation context sr llmUsed nowIso ms).known_bloom_period
        = (extract_bloom_data_from_search sr.raw_results flower region).season ∧
    (sr.raw_results = [] →
      (build_response region flower explanation context sr llmUsed nowIso ms).season
        = "Data not available") := by
  refine ⟨rfl, rfl, fun h => ?_⟩
  have hs : (build_response region flower explanation context sr llmUsed nowIso ms).season
      = (extract_bloom_data_from_search sr.raw_results flower region).season := rfl
  rw [hs, h]
  rfl

/-- Witness for claim C3 (amended) at a concrete failed-search input. -/
theorem claim_C3_amended_witness :
    (({ raw_results := [], synthesis := "s", result_count := none, error := some "boom" }
        : WebSearchOut).raw_results = []) ∧
    (build_response "Kerala" "rose" "e"
        (prepare_explanation_context "Kerala" "rose" 0.7 none none none none 1 2025 "")
        { raw_results := [], synthesis := "s", result_count := none, error := some "boom" }
        false "" 0).season = "Data not available" :=
  ⟨rfl,
   (claim_C3_amended "Kerala" "rose" "e"
      (prepare_explanation_context "Kerala" "rose" 0.7 none none none none 1 2025 "")
      { raw_results := [], synthesis := "s", result_count := none, error := some "boom" }
      false "" 0).2.2 rfl⟩

/-- Claim C4 counterexample: a successful one-result search whose text contains
both an active-status keyword and the low-abundance keyword `"rare"` yields
status `"active"` but response abundance `"low"` — the claimed status→abundance
table (active→high) is not applied when search succeeds with a non-"unknown"
extracted abundance. -/
theorem claim_C4_counterexample :
    (extract_bloom_data_from_search
        [{ title := "Report", snippet := "currently blooming but rare" }]
        "tulip" "Kerala").bloom_status = "active" ∧
    (build_response "Kerala" "tulip" "expl"
        (prepare_explanation_context "Kerala" "tulip" 0.7 none none none none 1 2025 "")
        { raw_results := [{ title := "Report", snippet := "currently blooming but rare" }],
          synthesis := "s", result_count := some 1, error := none }
        false "" 0).abundance_level = "low" ∧
    ("low" : String) ≠ "high" := by
  refine ⟨rfl, rfl, ?_⟩
  decide

/-- Claim C4 (amended): the response abundance equals the keyword-extracted
abundance whenever that is not `"unknown"`; the fixed status→abundance table is
consulted only when the extracted abundance is `"unknown"`, which happens
exactly when the result list is empty (then the status is `"unknown"` too, so
the table yields `"medium"`).  The table itself is exhaustive — each of the
five statuses maps to exactly the claimed tier, and it is defined on every
status the extractor can produce.  The NDVI-score-based abundance default is
used only by the timeout/error fallback response. -/
theorem claim_C4_amended (region flower explanation : String) (context : Ctx)
    (sr : WebSearchOut) (llmUsed : Bool) (nowIso : String) (ms : Nat)
    (ndvi : Rat) (err : String) (month year : Nat) :
    ((build_response region flower explanation context sr llmUsed nowIso ms).abundance_level =
      if (extract_bloom_data_from_search sr.raw_results flower region).abundance = "unknown" then
        (abundance_map (extract_bloom_data_from_search sr.raw_results flower region).bloom_status).getD "medium"
      else (extract_bloom_data_from_search sr.raw_results flower region).abundance) ∧
    ((extract_bloom_data_from_search sr.raw_results flower region).abundance = "unknown" ↔
      sr.raw_results = []) ∧
    (abundance_map "active" = some "high" ∧ abundance_map "upcoming" = some "medium" ∧
     abundance_map "past" = some "low" ∧ abundance_map "not_suitable" = some "none" ∧
     abundance_map "unknown" = some "medium") ∧
    (∀ results, (abundance_map
        (extract_bloom_data_from_search results flower region).bloom_status).isSome = true) ∧
    ((build_fallback_response region flower ndvi err month year nowIso ms).abundance_level
      = get_abundance_level ndvi) := by
  refine ⟨rfl, extract_abundance_unknown_iff sr.raw_results flower region,
    ⟨rfl, rfl, rfl, rfl, rfl⟩, fun results => abundance_map_covers_status results flower region,
    rfl⟩

/-- Witness for claim C4 (amended): the empty-results direction of the
"unknown exactly on empty input" equivalence, at a concrete input. -/
theorem claim_C4_amended_witness :
    (extract_bloom_data_from_search
        (({ raw_results := [], synthesis := "s", result_count := none, error := none }
          : WebSearchOut)).raw_results "rose" "France").abundance = "unknown" ∧
    abundance_map "active" = some "high" :=
  ⟨(claim_C4_amended "France" "rose" "e"
      (prepare_explanation_context "France" "rose" 0.7 none none none none 1 2025 "")
      { raw_results := [], synthesis := "s", result_count := none, error := none }
      false "" 0 0.7 "E" 1 2025).2.1.mpr rfl,
   (claim_C4_amended "France" "rose" "e"
      (prepare_explanation_context "France" "rose" 0.7 none none none none 1 2025 "")
      { raw_results := [], synthesis := "s", result_count := none, error := none }
      false "" 0 0.7 "E" 1 2025).2.2.1.1⟩

/-- Claim C5: the bloom status is classified by first-match priority over the
fixed ordered keyword groups — active, then upcoming, then past, then
incompatibility, defaulting to `"unknown"` — and in particular any corpus whose
combined text contains `"currently blooming"` (itself an active indicator)
extracts to status `"active"`. -/
theorem claim_C5_status_first_match_priority
    (results : List SearchResult) (flower region : String)
    (h : pyIn "currently blooming" (combinedText results) = true) :
    (extract_bloom_data_from_search results flower region).bloom_status = "active" ∧
    (∀ text, containsAny text ["blooming", "in bloom", "flowering now", "currently blooming"] = true →
      bloomStatusOf text = "active") ∧
    (∀ text, containsAny text ["blooming", "in bloom", "flowering now", "currently blooming"] = false →
      containsAny text ["will bloom", "expected", "upcoming", "soon"] = true →
      bloomStatusOf text = "upcoming") ∧
    (∀ text, containsAny text ["blooming", "in bloom", "flowering now", "currently blooming"] = false →
      containsAny text ["will bloom", "expected", "upcoming", "soon"] = false →
      containsAny text ["finished", "ended", "past bloom"] = true →
      bloomStatusOf text = "past") ∧
    (∀ text, containsAny text ["blooming", "in bloom", "flowering now", "currently blooming"] = false →
      containsAny text ["will bloom", "expected", "upcoming", "soon"] = false →
      containsAny text ["finished", "ended", "past bloom"] = false →
      containsAny text ["cannot grow", "not suitable", "doesn\x27t grow", "incompatible"] = true →
      bloomStatusOf text = "not_suitable") ∧
    (∀ text, containsAny text ["blooming", "in bloom", "flowering now", "currently blooming"] = false →
      containsAny text ["will bloom", "expected", "upcoming", "soon"] = false →
      containsAny text ["finished", "ended", "past bloom"] = false →
      containsAny text ["cannot grow", "not suitable", "doesn\x27t grow", "incompatible"] = false →
      bloomStatusOf text = "unknown") := by
  have hactive : ∀ text,
      containsAny text ["blooming", "in bloom", "flowering now", "currently blooming"] = true →
      bloomStatusOf text = "active" := by
    intro text ht
    unfold bloomStatusOf
    rw [ht]
    rfl
  refine ⟨?_, hactive, ?_, ?_, ?_, ?_⟩
  · cases results with
    | nil => exact absurd h (by decide)
    | cons r rs =>
      have hc : containsAny (combinedText (r :: rs))
          ["blooming", "in bloom", "flowering now", "currently blooming"] = true := by
        unfold containsAny
        rw [List.any_eq_true]
        exact ⟨"currently blooming", by decide, h⟩
      have he : (extract_bloom_data_from_search (r :: rs) flower region).bloom_status
          = bloomStatusOf (combinedText (r :: rs)) := rfl
      rw [he]
      exact hactive _ hc
  · intro text h1 h2
    unfold bloomStatusOf
    rw [h1, h2]
    rfl
  · intro text h1 h2 h3
    unfold bloomStatusOf
    rw [h1, h2, h3]
    rfl
  · intro text h1 h2 h3 h4
    unfold bloomStatusOf
    rw [h1, h2, h3, h4]
    rfl
  · intro text h1 h2 h3 h4
    unfold bloomStatusOf
    rw [h1, h2, h3, h4]
    rfl

/-- Witness for claim C5 at a concrete one-result corpus containing
`"currently blooming"` and no other status keyword. -/
theorem claim_C5_witness :
    pyIn "currently blooming"
      (combinedText [{ title := "Kashmir tulips", snippet := "Currently blooming across gardens" }])
      = true ∧
    (extract_bloom_data_from_search
      [{ title := "Kashmir tulips", snippet := "Currently blooming across gardens" }]
      "tulip" "Kashmir").bloom_status = "active" :=
  ⟨by decide,
   (claim_C5_status_first_match_priority
      [{ title := "Kashmir tulips", snippet := "Currently blooming across gardens" }]
      "tulip" "Kashmir" (by decide)).1⟩

/-- Claim C8: geocoding enrichment returns the same candidates in the same
order with none removed — it is exactly the element-wise map of the one-step
enrichment, so a failure on one candidate cannot affect another (splitting the
list splits the enrichment); the one-step enrichment preserves name, country,
full name, mentions, confidence and note, fills coordinates and clears
`needs_geocoding` when lookup succeeds, sets `needs_geocoding` and leaves
coordinates empty when lookup fails, and leaves already-geocoded candidates
untouched. -/
theorem claim_C8_geocode_enrichment (regions : List RegionCandidate) :
    geocode_regions regions = regions.map geocodeStep ∧
    (geocode_regions regions).length = regions.length ∧
    (∀ xs ys : List RegionCandidate,
      geocode_regions (xs ++ ys) = geocode_regions xs ++ geocode_regions ys) ∧
    (∀ r : RegionCandidate,
      ((geocodeStep r).name = r.name ∧ (geocodeStep r).country = r.country ∧
       (geocodeStep r).full_name = r.full_name ∧ (geocodeStep r).mentions = r.mentions ∧
       (geocodeStep r).confidence = r.confidence ∧ (geocodeStep r).note = r.note) ∧
      (r.coordinates = none → geocode_region r.name (some r.country) = none →
        (geocodeStep r).coordinates = none ∧ (geocodeStep r).needs_geocoding = true) ∧
      (r.coordinates = none → ∀ c, geocode_region r.name (some r.country) = some c →
        (geocodeStep r).coordinates = some c ∧ (geocodeStep r).needs_geocoding = false) ∧
      (∀ c, r.coordinates = some c → geocodeStep r = r)) := by
  have hmap : ∀ l : List RegionCandidate, geocode_regions l = l.map geocodeStep := by
    intro l
    induction l with
    | nil => rfl
    | cons x xs ih => simp [geocode_regions, ih]
  refine ⟨hmap regions, by rw [hmap regions, List.length_map], ?_, ?_⟩
  · intro xs ys
    rw [hmap (xs ++ ys), hmap xs, hmap ys, List.map_append]
  · intro r
    refine ⟨?_, ?_, ?_, ?_⟩
    · unfold geocodeStep
      split
      · split <;> exact ⟨rfl, rfl, rfl, rfl, rfl, rfl⟩
      · exact ⟨rfl, rfl, rfl, rfl, rfl, rfl⟩
    · intro h1 h2
      simp [geocodeStep, h1, h2]
    · intro h1 c h2
      simp [geocodeStep, h1, h2]
    · intro c h
      simp [geocodeStep, h]

/-- Witness for claim C8 at the spec's five-candidate scenario: four candidates
acquire coordinates, the unresolvable one keeps `needs_geocoding = true`, and
nothing is removed or reordered. -/
theorem claim_C8_witness :
    geocode_regions geoFive = geoFive.map geocodeStep ∧
    (geocode_regions geoFive).map (fun r => (r.name, r.needs_geocoding, r.coordinates.isSome)) =
      [("Kashmir Valley", false, true), ("Srinagar", false, true), ("Munnar", false, true),
       ("Coorg", false, true), ("Zzyzx Qwv", true, false)] ∧
    (geocode_regions geoFive).length = 5 :=
  ⟨(claim_C8_geocode_enrichment geoFive).1, by decide, by decide⟩

/-- Claim C9 counterexample: with both provider keys unset (and no LLM), the
orchestrator substitutes the mock search, so the response metadata reports
`search_available = true` and carries neither an error nor a fallback marker —
provider absence is *not* reflected as degradation, contrary to the claim. -/
theorem claim_C9_counterexample :
    (orchestrate c9Env "Kashmir" "tulip" 0.7 none none none false 5).meta_search_available
      = true ∧
    (orchestrate c9Env "Kashmir" "tulip" 0.7 none none none false 5).meta_error = none ∧
    (orchestrate c9Env "Kashmir" "tulip" 0.7 none none none false 5).meta_fallback = false ∧
    ¬((orchestrate c9Env "Kashmir" "tulip" 0.7 none none none false 5).meta_search_available
          = false ∨
      (orchestrate c9Env "Kashmir" "tulip" 0.7 none none none false 5).meta_error ≠ none ∨
      (orchestrate c9Env "Kashmir" "tulip" 0.7 none none none false 5).meta_fallback = true) := by
  refine ⟨rfl, rfl, rfl, ?_⟩
  rintro (h | h | h)
  · exact absurd ((rfl :
      (orchestrate c9Env "Kashmir" "tulip" 0.7 none none none false 5).meta_search_available
        = true).symm.trans h) (by decide)
  · exact h rfl
  · exact absurd ((rfl :
      (orchestrate c9Env "Kashmir" "tulip" 0.7 none none none false 5).meta_fallback
        = false).symm.trans h) (by decide)

/-- Claim C9 (amended): when both search provider keys are unset and no other
sub-unit fails, the orchestrator substitutes the deterministic mock search, so
the metadata reports `search_available = true` with no error or fallback marker
(provider absence is not reflected as degradation); with no LLM configured the
explanation is exactly the deterministic fallback generator's output on the
request context — a pure function of that context, hence byte-for-byte
reproducible — and is non-empty. -/
theorem claim_C9_amended
    (env : OrchEnv) (region flower : String) (ndvi : Rat)
    (coords : Option (Rat × Rat)) (climate : Option ClimateData) (date : Option String)
    (use_mock : Bool) (maxResults : Nat)
    (hserp : env.serpapiKey = "") (hnews : env.newsapiKey = "")
    (hllm : env.hasLLM = false) (htime : env.timedOut = false)
    (hctx : env.contextTaskRaise = none) (hsearch : env.searchTaskRaise = none)
    (hweb : env.webSearchRaise = none) :
    (orchestrate env region flower ndvi coords climate date use_mock maxResults).explanation =
      generate_fallback_explanation region flower ndvi
        (prepare_explanation_context region flower ndvi coords climate date none
          env.monthNow env.yearNow env.nowIso) ∧
    (orchestrate env region flower ndvi coords climate date use_mock maxResults).explanation
      ≠ "" ∧
    (orchestrate env region flower ndvi coords climate date use_mock maxResults).meta_search_available
      = true ∧
    (orchestrate env region flower ndvi coords climate date use_mock maxResults).meta_llm_used
      = false ∧
    (orchestrate env region flower ndvi coords climate date use_mock maxResults).meta_error
      = none ∧
    (orchestrate env region flower ndvi coords climate date use_mock maxResults).meta_fallback
      = false := by
  cases env with
  | mk hasLLM serpapiKey newsapiKey serpAv newsAv serpCall newsCall crewS crewE webR
      searchR ctxR timed monthNow yearNow nowIso elapsed =>
    cases hserp
    cases hnews
    cases hllm
    cases htime
    cases hctx
    cases hsearch
    cases hweb
    cases use_mock <;>
      exact ⟨rfl, generate_fallback_explanation_ne_empty _ _ _ _, rfl, rfl, rfl, rfl⟩

/-- Witness for claim C9 (amended) at the concrete no-provider, no-LLM
environment. -/
theorem claim_C9_amended_witness :
    c9Env.serpapiKey = "" ∧ c9Env.hasLLM = false ∧
    (orchestrate c9Env "Kashmir" "tulip" 0.7 none none none false 5).explanation ≠ "" ∧
    (orchestrate c9Env "Kashmir" "tulip" 0.7 none none none false 5).meta_search_available
      = true :=
  ⟨rfl, rfl,
   (claim_C9_amended c9Env "Kashmir" "tulip" 0.7 none none none false 5
      rfl rfl rfl rfl rfl rfl rfl).2.1,
   (claim_C9_amended c9Env "Kashmir" "tulip" 0.7 none none none false 5
      rfl rfl rfl rfl rfl rfl rfl).2.2.1⟩

end BloomWatch
